import Mathlib

set_option maxRecDepth 8000
set_option maxHeartbeats 1000000

/-!
Shallow embedding of the Lane Boundary Tracking Engine of
CV-Advanced-Lane-Detection (advanced_lane_lines.ipynb).

The engine's numeric work is done by numpy over floats; we model float
arithmetic by exact arithmetic (`ℚ` for the search/fit pipeline, `ℝ` for the
curvature formulas, which involve a 1.5 power).  `np.polyfit(y, x, 2)` is
modelled by solving the least-squares normal equations with Cramer's rule
(`fitQuad`); on full-rank inputs (three distinct y values) this agrees exactly
with the least-squares fit numpy computes.  `np.polyfit` raises on an empty
input vector; fallible calls are modelled with `Except Unit`.

A binary warped mask is a grid of intensities; the notebook's pipeline stacks
the same binary channel three times (np.dstack), and both images the searches
actually scan with np.nonzero — the module-global `warped_binary` read by
sliding_window and the 3-channel local passed to subsequent_frame by
process_image — are three-channel.  np.nonzero on such an array returns one
entry per nonzero scalar, so every active pixel appears three times in
nonzeroy/nonzerox.  `nonzeroCells` is the per-cell (row, col) scan of the
underlying channel, and `nonzeroList = tripleList nonzeroCells` is what the
program's nonzero scans deliver.  The histogram path uses `[:,:,0]` and is
untouched by the tripling.  This tripling matters: the validation
`leftx.shape[0] > 1` holds for any nonempty pixel set (3n > 1 iff n >= 1),
and the window recenter test `len(good_inds) > 50` compares the tripled
count, firing at 17 or more distinct pixels.

Two module-level mutable pieces of state of the notebook are made explicit:
 * the tracker globals `lanes_detected`, `left_fit`, `right_fit` become the
   `TState` record threaded through `process_image`;
 * the module-level image `warped_binary` (set once in an earlier cell and
   read by `sliding_window` for its pixel scan and window height) becomes the
   explicit parameter `g` of `sliding_window`.
-/

/-- A warped binary mask: height, width, and the intensity at (row, col). -/
structure Mask where
  h : Nat
  w : Nat
  v : Nat → Nat → Nat

abbrev Pix := Nat × Nat

/-- Quadratic fit coefficients (A, B, C) for x = A y^2 + B y + C. -/
abbrev Fitq := ℚ × ℚ × ℚ

/-- The (row, col) positions of the nonzero cells of the underlying binary
channel, row-major, one entry per active cell. -/
def nonzeroCells (m : Mask) : List Pix :=
  (List.range m.h).flatMap fun r =>
    ((List.range m.w).filter fun c => m.v r c != 0).map fun c => (r, c)

/-- Each element repeated three times in place: the effect of scanning the
three identical channels of a dstack-ed image with np.nonzero. -/
def tripleList (l : List Pix) : List Pix :=
  l.flatMap fun p => [p, p, p]

/-- The (row, col) pairs np.nonzero yields on the three-channel images the
searches actually scan: every active pixel appears three times (once per
identical channel), in row-major order of (row, col, channel). -/
def nonzeroList (m : Mask) : List Pix :=
  tripleList (nonzeroCells m)

/-- Column histogram of the bottom half of the image:
np.sum(single_channel[int(h/2):, :], axis=0). -/
def histogram (m : Mask) : List Nat :=
  (List.range m.w).map fun c =>
    ((List.range m.h).filter fun r => m.h / 2 ≤ r).foldl (fun a r => a + m.v r c) 0

/-- First index of the maximum of a list, as np.argmax computes it
(0 on the empty list, where numpy instead raises). -/
def argmaxFirst (l : List Nat) : Nat :=
  (l.foldl
    (fun (st : Nat × Nat × Nat) x =>
      if st.2.1 < x then (st.2.2, x, st.2.2 + 1) else (st.1, st.2.1, st.2.2 + 1))
    (0, 0, 0)).1

/-- leftx_base = np.argmax(histogram[:midpoint]) with midpoint = int(w/2). -/
def leftx_base (m : Mask) : Nat :=
  argmaxFirst ((histogram m).take (m.w / 2))

/-- rightx_base = np.argmax(histogram[midpoint:]) + midpoint. -/
def rightx_base (m : Mask) : Nat :=
  argmaxFirst ((histogram m).drop (m.w / 2)) + m.w / 2

/-- center_offset = int((leftx_base+rightx_base)/2) - midpoint, as computed in
sliding_window. -/
def center_offset_sliding (m : Mask) : ℤ :=
  (((leftx_base m + rightx_base m) / 2 : Nat) : ℤ) - ((m.w / 2 : Nat) : ℤ)

/-- center_offset = int((leftx_base+rightx_base)/2) - midpoint, as computed by
the identical lines of subsequent_frame. -/
def center_offset_subsequent (m : Mask) : ℤ :=
  (((leftx_base m + rightx_base m) / 2 : Nat) : ℤ) - ((m.w / 2 : Nat) : ℤ)

/-- The nonzero pixels falling in one sliding window: rows in
[win_y_low, win_y_high) and columns in [center - margin, center + margin),
with margin = 100.  The numpy comparisons are `>= low` and `< high` for both
coordinates. -/
def bandPixels (nz : List Pix) (ylow yhigh : ℤ) (c : Nat) : List Pix :=
  nz.filter fun p =>
    decide (ylow ≤ (p.1 : ℤ) ∧ (p.1 : ℤ) < yhigh ∧
      (c : ℤ) - 100 ≤ (p.2 : ℤ) ∧ (p.2 : ℤ) < (c : ℤ) + 100)

/-- Recentering rule of the sliding window: if more than minpix = 50 pixels
were collected, the next center is np.int(np.mean(xs)) (the truncated mean,
which is floor division for the nonnegative column values); otherwise the
center is unchanged.  An empty collection takes the `else` branch, so it
causes no error. -/
def recenter (c : Nat) (collected : List Pix) : Nat :=
  if 50 < collected.length then (collected.map Prod.snd).sum / collected.length
  else c

/-- The nine-window loop of sliding_window.  `mh` is the height of the mask
argument (used for the window y bounds), `wh` the window height np.int(gh/9)
computed from the module-global image, `nz` that image's nonzero pixels.
Each window appends its collected pixels for both lines, then recenters
each line independently. -/
def slidingBands (mh : Nat) (wh : Nat) (nz : List Pix) (lb rb : Nat) :
    List Pix × List Pix :=
  ((List.range 9).foldl
    (fun (st : (List Pix × List Pix) × Nat × Nat) k =>
      let ylow : ℤ := (mh : ℤ) - (k + 1) * wh
      let yhigh : ℤ := (mh : ℤ) - k * wh
      let gl := bandPixels nz ylow yhigh st.2.1
      let gr := bandPixels nz ylow yhigh st.2.2
      ((st.1.1 ++ gl, st.1.2 ++ gr), recenter st.2.1 gl, recenter st.2.2 gr))
    (([], []), lb, rb)).1

/-- 3x3 determinant, written out. -/
def det3 {K : Type} [Field K] (a b c d e f g h i : K) : K :=
  a * (e * i - f * h) - b * (d * i - f * g) + c * (d * h - e * g)

/-- Least-squares quadratic fit x = A y^2 + B y + C through (y, x) pairs,
by Cramer's rule on the normal equations; this is what np.polyfit(y, x, 2)
computes on inputs with at least three distinct y values.  (On rank-deficient
inputs numpy returns a minimum-norm solution while the determinant here is
zero, so the division-by-zero convention yields junk coefficients; no claim
depends on coefficients of a rank-deficient fit.) -/
def fitQuad {K : Type} [Field K] (pts : List (K × K)) : K × K × K :=
  let n : K := (pts.length : K)
  let sy := (pts.map fun p => p.1).sum
  let sy2 := (pts.map fun p => p.1 ^ 2).sum
  let sy3 := (pts.map fun p => p.1 ^ 3).sum
  let sy4 := (pts.map fun p => p.1 ^ 4).sum
  let sx := (pts.map fun p => p.2).sum
  let sxy := (pts.map fun p => p.1 * p.2).sum
  let sxy2 := (pts.map fun p => p.1 ^ 2 * p.2).sum
  let d := det3 sy4 sy3 sy2 sy3 sy2 sy sy2 sy n
  let da := det3 sxy2 sy3 sy2 sxy sy2 sy sx sy n
  let db := det3 sy4 sxy2 sy2 sy3 sxy sy sy2 sx n
  let dc := det3 sy4 sy3 sxy2 sy3 sy2 sxy sy2 sy sx
  (da / d, db / d, dc / d)

/-- np.polyfit(ys, xs, 2): raises (TypeError, expected non-empty vector)
when the input vectors are empty, otherwise fits. -/
def polyfitE (ys xs : List ℚ) : Except Unit Fitq :=
  if ys.isEmpty then .error () else .ok (fitQuad (ys.zip xs))

/-- Result record of sliding_window / subsequent_frame:
(lanes_detected, center_offset, left_fit, right_fit). -/
structure SWOut where
  detected : Bool
  offset : ℤ
  lfit : Fitq
  rfit : Fitq
deriving DecidableEq

/-- Pixel extraction of sliding_window.  `binary_warped` is the function
argument (used for the histogram seeding and the window y bounds);
`g` is the module-global warped_binary image that the source actually reads
for its nonzero-pixel scan and window height. -/
def sliding_window_pix (binary_warped g : Mask) : List Pix × List Pix :=
  slidingBands binary_warped.h (g.h / 9) (nonzeroList g)
    (leftx_base binary_warped) (rightx_base binary_warped)

/-- sliding_window(binary_warped): histogram-seeded window search, flags
lanes_detected when both pixel-index arrays have shape > 1, then fits both
lines (np.polyfit raising on an empty pixel set).  Because the scanned image
is three-channel, the arrays hold three entries per distinct pixel, so the
shape > 1 test is satisfied by any nonempty pixel set; a search that returns
at all returns lanes_detected = True, and an empty set raises instead. -/
def sliding_window (binary_warped g : Mask) : Except Unit SWOut :=
  let p := sliding_window_pix binary_warped g
  let detected := decide (1 < p.1.length ∧ 1 < p.2.length)
  match polyfitE (p.1.map fun q => (q.1 : ℚ)) (p.1.map fun q => (q.2 : ℚ)) with
  | .error e => .error e
  | .ok lf =>
    match polyfitE (p.2.map fun q => (q.1 : ℚ)) (p.2.map fun q => (q.2 : ℚ)) with
    | .error e => .error e
    | .ok rf => .ok ⟨detected, center_offset_sliding binary_warped, lf, rf⟩

/-- The prior quadratic evaluated at a pixel row:
fit[0]*y^2 + fit[1]*y + fit[2]. -/
def predQ (f : Fitq) (y : Nat) : ℚ :=
  f.1 * (y : ℚ) ^ 2 + f.2.1 * (y : ℚ) + f.2.2

/-- Pixel extraction of subsequent_frame: an active pixel joins a line's set
iff its column is strictly within margin = 100 of that line's prior curve
evaluated at the pixel's row (numpy comparisons are `>` and `<`). -/
def subsequentInds (m : Mask) (lf rf : Fitq) : List Pix × List Pix :=
  let nz := nonzeroList m
  (nz.filter fun p =>
      decide (predQ lf p.1 - 100 < (p.2 : ℚ) ∧ (p.2 : ℚ) < predQ lf p.1 + 100),
   nz.filter fun p =>
      decide (predQ rf p.1 - 100 < (p.2 : ℚ) ∧ (p.2 : ℚ) < predQ rf p.1 + 100))

/-- subsequent_frame(binary_warped, left_fit, right_fit): targeted search
around the prior fits.  The center offset is computed from the mask's
histogram (through channel 0, untouched by the tripling) by the same lines as
in sliding_window, before and independently of the fits.  As in
sliding_window, the shape > 1 validation over the tripled index arrays is
satisfied by any nonempty pixel set, so lanes_detected = False cannot be
returned: a search with an empty corridor set raises in np.polyfit instead.
(The left_fitx/right_fitx arrays the source computes at the end are used only
for plotting and are omitted.) -/
def subsequent_frame (m : Mask) (lf rf : Fitq) : Except Unit SWOut :=
  let off := center_offset_subsequent m
  let p := subsequentInds m lf rf
  let detected := decide (1 < p.1.length ∧ 1 < p.2.length)
  match polyfitE (p.1.map fun q => (q.1 : ℚ)) (p.1.map fun q => (q.2 : ℚ)) with
  | .error e => .error e
  | .ok lf2 =>
    match polyfitE (p.2.map fun q => (q.1 : ℚ)) (p.2.map fun q => (q.2 : ℚ)) with
    | .error e => .error e
    | .ok rf2 => .ok ⟨detected, off, lf2, rf2⟩

/-- The tracker globals of the notebook: lanes_detected (None / False / True),
left_fit and right_fit (absent until first assigned). -/
structure TState where
  ld : Option Bool
  lf : Option Fitq
  rf : Option Fitq
deriving DecidableEq

/-- Initial tracker state: lanes_detected = None, both fits unassigned. -/
def initState : TState := ⟨none, none, none⟩

/-- Result of one process_image call: the new tracker state, plus observers
recording which search functions the frame invoked and, when the overlay was
rendered, the pair of fits it was rendered from. -/
structure StepOut where
  st : TState
  invokedWindow : Bool
  invokedTargeted : Bool
  overlay : Option (Fitq × Fitq)
deriving DecidableEq

/-- Placeholder for the python initial value left_fit = [] (an empty list,
which would itself raise if ever indexed; it is only read when
lanes_detected is True, by which point both fits have been assigned). -/
def fit0 : Fitq := (0, 0, 0)

/-- One call of process_image on a frame whose warped binary mask is `m`.
`g` is the module-level warped_binary image read by sliding_window.
Control flow of the source: if lanes_detected is None, run sliding_window
(assigning the globals); then, if lanes_detected is True, run
subsequent_frame with the stored fits, reassign the globals to its results
(whether or not its fits validated) and render the overlay from those
same-frame re-fits; otherwise reset lanes_detected to None, keeping the
stored fits. -/
def process_image (g : Mask) (s : TState) (m : Mask) : Except Unit StepOut :=
  match s.ld with
  | none =>
    match sliding_window m g with
    | .error e => .error e
    | .ok w =>
      if w.detected then
        match subsequent_frame m w.lfit w.rfit with
        | .error e => .error e
        | .ok t =>
          .ok ⟨⟨some t.detected, some t.lfit, some t.rfit⟩, true, true,
            some (t.lfit, t.rfit)⟩
      else
        .ok ⟨⟨none, some w.lfit, some w.rfit⟩, true, false, none⟩
  | some b =>
    if b then
      match subsequent_frame m (s.lf.getD fit0) (s.rf.getD fit0) with
      | .error e => .error e
      | .ok t =>
        .ok ⟨⟨some t.detected, some t.lfit, some t.rfit⟩, false, true,
          some (t.lfit, t.rfit)⟩
    else
      .ok ⟨⟨none, s.lf, s.rf⟩, false, false, none⟩

/-- Concrete 9x8 mask with two vertical lines, at columns 2 and 6. -/
def twoLines : Mask := ⟨9, 8, fun _ c => if c = 2 ∨ c = 6 then 1 else 0⟩

/-- Concrete all-zero 9x8 mask. -/
def zeroMask : Mask := ⟨9, 8, fun _ _ => 0⟩

/-- Concrete 1x104 mask with a single active pixel at row 0, column 103. -/
def dotMask : Mask := ⟨1, 104, fun r c => if r = 0 ∧ c = 103 then 1 else 0⟩

/-- Concrete 1x205 mask with a single active pixel at row 0, column 200 —
far outside the plus-or-minus 100 corridor of a prior curve predicting
column 4. -/
def farDot : Mask := ⟨1, 205, fun r c => if r = 0 ∧ c = 200 then 1 else 0⟩

/-- Concrete 1x20 mask whose whole single row is active: 20 distinct pixels,
60 entries in the three-channel nonzero scan. -/
def rowMask : Mask := ⟨1, 20, fun r _ => if r = 0 then 1 else 0⟩

/-- ym_per_pix = 30/720, meters per pixel in the y dimension. -/
def ym_per_pix : ℚ := 30 / 720

/-- xm_per_pix = 3.7/700, meters per pixel in the x dimension. -/
def xm_per_pix : ℚ := 37 / 7000

/-- np.max over a list of rationals (0 on the empty list, where numpy instead
raises; every use is on a nonempty ploty of nonnegative values). -/
def listMax (l : List ℚ) : ℚ := l.foldl max 0

/-- The ploty array np.linspace(0, h-1, h) = [0, 1, ..., h-1]. -/
def plotyOf (H : Nat) : List ℚ := (List.range H).map fun n => (n : ℚ)

/-- The t^1.5 power appearing in the radius formula, on real numbers. -/
noncomputable def rpow15 (t : ℝ) : ℝ := t * Real.sqrt t

/-- The divisor np.absolute(2*fit[0]) of the radius formula.  The source
applies it unguarded, with no epsilon test for a near-zero leading
coefficient. -/
def radiusDenom (A : ℚ) : ℚ := |2 * A|

/-- Radius of curvature ((1 + (2 A y0 + B)^2)^1.5) / |2 A| of the quadratic
x = A y^2 + B y + C at the evaluation point y0, exactly the expression the
source computes for each line (with y0 = y_eval * ym_per_pix in the metric
re-fit).  Division by a zero divisor (A = 0) is total in this model and
yields 0, where the float source yields infinity. -/
noncomputable def radiusOfCurvature (A B y0 : ℚ) : ℝ :=
  rpow15 ((1 + (2 * A * y0 + B) ^ 2 : ℚ) : ℝ) / ((radiusDenom A : ℚ) : ℝ)

/-- Rounding to one decimal, round(x, 1), modelled with the round-half-up
convention of Mathlib round (the float source uses round-half-even; no claim
depends on tie behavior). -/
noncomputable def round1R (x : ℝ) : ℝ := ((round (10 * x) : ℤ) : ℝ) / 10

/-- Rounding to one decimal on rationals, for the reported position. -/
def round1Q (q : ℚ) : ℚ := ((round (10 * q) : ℤ) : ℚ) / 10

/-- The metric-space re-fit: np.polyfit(ploty*ym_per_pix, xs*xm_per_pix, 2). -/
def metricFit (xs ploty : List ℚ) : Fitq :=
  fitQuad ((ploty.map fun y => y * ym_per_pix).zip (xs.map fun x => x * xm_per_pix))

/-- calculate_curvature(midoffset, leftx, rightx, ploty): returns
(position, curvature).  The pixel-space fits, the left_fitx/right_fitx
plotting arrays and the pixel-space radii the source computes first are dead
values (the radii variables are overwritten by the metric-space radii before
use), so they are omitted here.  y_eval = np.max(ploty). -/
noncomputable def calculate_curvature (midoffset : ℤ)
    (leftx rightx ploty : List ℚ) : ℚ × ℝ :=
  let y_eval := listMax ploty
  let left_fit_cr := metricFit leftx ploty
  let right_fit_cr := metricFit rightx ploty
  let left_curverad :=
    radiusOfCurvature left_fit_cr.1 left_fit_cr.2.1 (y_eval * ym_per_pix)
  let right_curverad :=
    radiusOfCurvature right_fit_cr.1 right_fit_cr.2.1 (y_eval * ym_per_pix)
  let curvature := 0.5 * (round1R (right_curverad / 1000) + round1R (left_curverad / 1000))
  let position := round1Q (100 * (midoffset : ℚ) * xm_per_pix)
  (position, curvature)

/-- The reported curvature as the specification words it: each line's radius
is computed from the metric-space re-fit by the radius formula at
y0 = imageHeight - 1 (in metric y units), converted to kilometers, rounded to
one decimal, and the two rounded radii are then averaged. -/
noncomputable def curvatureSpec (leftx rightx : List ℚ) (H : Nat) : ℝ :=
  let lcr := metricFit leftx (plotyOf H)
  let rcr := metricFit rightx (plotyOf H)
  let Rl := radiusOfCurvature lcr.1 lcr.2.1 (((H : ℚ) - 1) * ym_per_pix)
  let Rr := radiusOfCurvature rcr.1 rcr.2.1 (((H : ℚ) - 1) * ym_per_pix)
  (round1R (Rl / 1000) + round1R (Rr / 1000)) / 2

theorem listMax_plotyOf (H : Nat) (hH : 1 ≤ H) :
    listMax (plotyOf H) = (H : ℚ) - 1 := by
  induction H with
  | zero => omega
  | succ n ih =>
    rcases Nat.eq_or_lt_of_le hH with h1 | h1
    · have hn0 : n = 0 := by omega
      subst hn0
      simp [plotyOf, listMax, List.range_succ, List.foldl_cons, List.foldl_nil]
    · have hn : 1 ≤ n := by omega
      have hsplit : plotyOf (n + 1) = plotyOf n ++ [(n : ℚ)] := by
        simp [plotyOf, List.range_succ]
      rw [listMax, hsplit, List.foldl_append, ← listMax, ih hn,
        List.foldl_cons, List.foldl_nil]
      have hle : (n : ℚ) - 1 ≤ (n : ℚ) := by linarith
      rw [max_eq_right hle]
      push_cast
      ring

theorem tripleList_mem (p : Pix) (l : List Pix) : p ∈ tripleList l ↔ p ∈ l := by
  simp [tripleList]

theorem tripleList_filter (l : List Pix) (q : Pix → Bool) :
    (tripleList l).filter q = tripleList (l.filter q) := by
  induction l with
  | nil => rfl
  | cons a t ih =>
    simp only [tripleList] at ih ⊢
    cases hq : q a <;>
      simp [List.flatMap_cons, List.filter_append, List.filter_cons, hq, ih]

theorem tripleList_length (l : List Pix) : (tripleList l).length = 3 * l.length := by
  induction l with
  | nil => rfl
  | cons a t ih =>
    simp only [tripleList, List.flatMap_cons, List.length_append,
      List.length_cons, List.length_nil] at *
    omega

theorem tripleList_map_sum (l : List Pix) :
    ((tripleList l).map Prod.snd).sum = 3 * (l.map Prod.snd).sum := by
  induction l with
  | nil => rfl
  | cons a t ih =>
    simp only [tripleList, List.flatMap_cons, List.map_append, List.sum_append,
      List.map_cons, List.sum_cons, List.map_nil, List.sum_nil] at *
    omega

theorem tripleList_filter_one_lt (l : List Pix) (q : Pix → Bool)
    (h : (tripleList l).filter q ≠ []) : 1 < ((tripleList l).filter q).length := by
  rw [tripleList_filter] at h ⊢
  rw [tripleList_length]
  have hne : l.filter q ≠ [] := by
    intro h0
    rw [h0] at h
    exact h rfl
  have hpos : 0 < (l.filter q).length := List.length_pos.mpr hne
  omega

theorem polyfitE_ok_ne_nil (ys xs : List ℚ) (f : Fitq)
    (h : polyfitE ys xs = .ok f) : ys ≠ [] := by
  intro hy
  subst hy
  simp [polyfitE] at h

/-- A targeted search that returns at all reports lanes_detected = True: its
pixel-index lists are filters of the tripled nonzero scan, so a nonempty
list has at least three entries and the shape > 1 validation holds, while an
empty list makes np.polyfit raise before the flag is returned. -/
theorem subsequent_frame_ok_detected (m : Mask) (lf rf : Fitq) (r : SWOut)
    (h : subsequent_frame m lf rf = .ok r) : r.detected = true := by
  have key : subsequent_frame m lf rf =
      match polyfitE ((subsequentInds m lf rf).1.map fun q => (q.1 : ℚ))
          ((subsequentInds m lf rf).1.map fun q => (q.2 : ℚ)) with
      | .error e => .error e
      | .ok f1 =>
        match polyfitE ((subsequentInds m lf rf).2.map fun q => (q.1 : ℚ))
            ((subsequentInds m lf rf).2.map fun q => (q.2 : ℚ)) with
        | .error e => .error e
        | .ok f2 => .ok ⟨decide (1 < (subsequentInds m lf rf).1.length ∧
            1 < (subsequentInds m lf rf).2.length),
            center_offset_subsequent m, f1, f2⟩ := rfl
  rw [key] at h
  cases h1 : polyfitE ((subsequentInds m lf rf).1.map fun q => (q.1 : ℚ))
      ((subsequentInds m lf rf).1.map fun q => (q.2 : ℚ)) with
  | error e => rw [h1] at h; dsimp only at h; simp at h
  | ok f1 =>
    rw [h1] at h
    dsimp only at h
    cases h2 : polyfitE ((subsequentInds m lf rf).2.map fun q => (q.1 : ℚ))
        ((subsequentInds m lf rf).2.map fun q => (q.2 : ℚ)) with
    | error e => rw [h2] at h; dsimp only at h; simp at h
    | ok f2 =>
      rw [h2] at h
      dsimp only at h
      have h3 := Except.ok.inj h
      subst h3
      have n1 : (subsequentInds m lf rf).1 ≠ [] := by
        intro h0
        exact polyfitE_ok_ne_nil _ _ _ h1 (by rw [h0]; rfl)
      have n2 : (subsequentInds m lf rf).2 ≠ [] := by
        intro h0
        exact polyfitE_ok_ne_nil _ _ _ h2 (by rw [h0]; rfl)
      have e1 : (subsequentInds m lf rf).1 =
          (tripleList (nonzeroCells m)).filter
            (fun p => decide (predQ lf p.1 - 100 < (p.2 : ℚ) ∧
              (p.2 : ℚ) < predQ lf p.1 + 100)) := rfl
      have e2 : (subsequentInds m lf rf).2 =
          (tripleList (nonzeroCells m)).filter
            (fun p => decide (predQ rf p.1 - 100 < (p.2 : ℚ) ∧
              (p.2 : ℚ) < predQ rf p.1 + 100)) := rfl
      have t1 : 1 < (subsequentInds m lf rf).1.length := by
        rw [e1]
        exact tripleList_filter_one_lt _ _ (by rw [← e1]; exact n1)
      have t2 : 1 < (subsequentInds m lf rf).2.length := by
        rw [e2]
        exact tripleList_filter_one_lt _ _ (by rw [← e2]; exact n2)
      exact decide_eq_true ⟨t1, t2⟩

/-- C2 (code bug): feeding the all-zero BinaryMask does not produce an
invalid-but-exception-free LineFit pair; both pixel sets come out empty and
the unguarded np.polyfit call raises (modelled as Except.error), so
sliding_window and the whole process_image frame crash instead of returning
lanes_detected = False. -/
theorem all_zero_mask_polyfit_raises :
    sliding_window zeroMask zeroMask = .error () ∧
    process_image zeroMask initState zeroMask = .error () := by
  constructor <;> with_unfolding_all rfl

/-- C4 (amended): per-band behavior of the sliding window search over the
tripled nonzero scan of the three-channel image.  A pixel is collected by a
band exactly when it is an active pixel whose row lies in the band and whose
column lies in the half-open window of half-width margin = 100 around the
current center (membership is unaffected by the tripling; the collected list
carries each such pixel three times).  Recentering compares the tripled
entry count against minpix = 50, so the center moves to the truncated mean
column exactly when at least 17 distinct pixels were collected — not when
the distinct-pixel count exceeds 50 — and a band with zero pixels keeps the
previous center and causes no error. -/
theorem window_band_collection_and_recenter (nz : List Pix) (ylow yhigh : ℤ)
    (c : Nat) :
    (∀ p : Pix, p ∈ bandPixels (tripleList nz) ylow yhigh c ↔
      p ∈ nz ∧ ylow ≤ (p.1 : ℤ) ∧ (p.1 : ℤ) < yhigh ∧
        (c : ℤ) - 100 ≤ (p.2 : ℤ) ∧ (p.2 : ℤ) < (c : ℤ) + 100)
    ∧ bandPixels (tripleList nz) ylow yhigh c =
        tripleList (bandPixels nz ylow yhigh c)
    ∧ (∀ coll : List Pix, recenter c (tripleList coll) =
        if 17 ≤ coll.length then (coll.map Prod.snd).sum / coll.length else c)
    ∧ recenter c [] = c := by
  refine ⟨fun p => ?_, tripleList_filter _ _, fun coll => ?_, by simp [recenter]⟩
  · simp [bandPixels, List.mem_filter, tripleList_mem, and_assoc]
  · simp only [recenter, tripleList_length, tripleList_map_sum]
    by_cases h17 : 17 ≤ coll.length
    · rw [if_pos (by omega), if_pos h17, Nat.mul_div_mul_left _ _ (by norm_num)]
    · rw [if_neg (by omega), if_neg h17]

/-- Counterexample for C4 as stated: a band collecting 20 distinct active
pixels — not more than minpix = 50, so the claim says the previous center 7
is kept — nevertheless recenters to the truncated mean column 9, because the
program compares the 60 tripled entries of its three-channel nonzero scan
against 50. -/
theorem window_recenter_counterexample :
    (bandPixels (nonzeroCells rowMask) 0 1 7).length = 20 ∧
    ¬ 50 < (bandPixels (nonzeroCells rowMask) 0 1 7).length ∧
    recenter 7 (bandPixels (nonzeroList rowMask) 0 1 7) = 9 ∧ (9 : Nat) ≠ 7 := by
  refine ⟨by decide, by decide, by decide, by decide⟩

/-- C5 (amended): in the targeted search an active pixel joins a line's pixel
set exactly when its column is strictly within margin = 100 of the prior
curve's prediction at the pixel's row; a distance of exactly margin is
excluded (the source comparisons are strict). -/
theorem targeted_search_strict_margin (m : Mask) (lf rf : Fitq) (p : Pix) :
    (p ∈ (subsequentInds m lf rf).1 ↔
      p ∈ nonzeroList m ∧
        predQ lf p.1 - 100 < (p.2 : ℚ) ∧ (p.2 : ℚ) < predQ lf p.1 + 100)
    ∧ (p ∈ (subsequentInds m lf rf).2 ↔
      p ∈ nonzeroList m ∧
        predQ rf p.1 - 100 < (p.2 : ℚ) ∧ (p.2 : ℚ) < predQ rf p.1 + 100) := by
  constructor <;> simp [subsequentInds, List.mem_filter, and_assoc]

/-- Counterexample for C5 as stated: the single active pixel of dotMask sits
at column distance exactly margin = 100 from the left prior's prediction
(predQ (0,0,3) 0 = 3, pixel column 103), so the claim says it is included,
but the targeted search excludes it. -/
theorem targeted_search_margin_boundary_excluded :
    (0, 103) ∈ nonzeroList dotMask ∧
    ((103 : ℚ)) - predQ (0, 0, 3) 0 = 100 ∧
    (0, 103) ∉ (subsequentInds dotMask (0, 0, 3) (0, 0, 3)).1 := by
  refine ⟨by decide, by with_unfolding_all decide, by with_unfolding_all decide⟩

/-- C8 (code bug): the pixel sets returned by the window search are not a
function of its mask argument alone: with the same mask argument but two
different values of the module-global warped_binary image (which the source
reads for its pixel scan), the returned PixelSets differ. -/
theorem window_pixels_depend_on_module_global :
    sliding_window_pix twoLines twoLines ≠ sliding_window_pix twoLines zeroMask := by
  decide

/-- Every completed process_image frame ends with the tracker flag either
some true or none: the subsequent_frame result flag is always True when the
call returns (subsequent_frame_ok_detected), a failed window search sets the
flag None via the reset else branch, and a frame entered with the flag False
ends None. -/
theorem process_image_end_flag (g : Mask) (s : TState) (m : Mask) (o : StepOut)
    (h : process_image g s m = .ok o) : o.st.ld = some true ∨ o.st.ld = none := by
  rcases s with ⟨ld, lf, rf⟩
  cases ld with
  | none =>
    have key : process_image g ⟨none, lf, rf⟩ m =
        match sliding_window m g with
        | .error e => .error e
        | .ok w =>
          if w.detected then
            match subsequent_frame m w.lfit w.rfit with
            | .error e => .error e
            | .ok t => .ok ⟨⟨some t.detected, some t.lfit, some t.rfit⟩,
                true, true, some (t.lfit, t.rfit)⟩
          else .ok ⟨⟨none, some w.lfit, some w.rfit⟩, true, false, none⟩ := rfl
    rw [key] at h
    cases hw : sliding_window m g with
    | error e => rw [hw] at h; dsimp only at h; simp at h
    | ok w =>
      rw [hw] at h
      dsimp only at h
      by_cases hd : w.detected = true
      · rw [if_pos hd] at h
        cases ht : subsequent_frame m w.lfit w.rfit with
        | error e => rw [ht] at h; dsimp only at h; simp at h
        | ok t =>
          rw [ht] at h
          dsimp only at h
          have h3 := Except.ok.inj h
          subst h3
          left
          rw [subsequent_frame_ok_detected m w.lfit w.rfit t ht]
      · rw [if_neg hd] at h
        have h3 := Except.ok.inj h
        subst h3
        right
        rfl
  | some b =>
    cases b with
    | true =>
      have key : process_image g ⟨some true, lf, rf⟩ m =
          match subsequent_frame m (lf.getD fit0) (rf.getD fit0) with
          | .error e => .error e
          | .ok t => .ok ⟨⟨some t.detected, some t.lfit, some t.rfit⟩,
              false, true, some (t.lfit, t.rfit)⟩ := rfl
      rw [key] at h
      cases ht : subsequent_frame m (lf.getD fit0) (rf.getD fit0) with
      | error e => rw [ht] at h; dsimp only at h; simp at h
      | ok t =>
        rw [ht] at h
        dsimp only at h
        have h3 := Except.ok.inj h
        subst h3
        left
        rw [subsequent_frame_ok_detected m (lf.getD fit0) (rf.getD fit0) t ht]
    | false =>
      have key : process_image g ⟨some false, lf, rf⟩ m =
          .ok ⟨⟨none, lf, rf⟩, false, false, none⟩ := rfl
      rw [key] at h
      have h3 := Except.ok.inj h
      subst h3
      right
      rfl

/-- C1: state machine transition law over two consecutive completed frames.
If frame k ends with both fits valid (the code's lanes_detected flag True),
frame k+1 invokes Targeted Search and not Window Search; if frame k ends
otherwise — without the both-fits-valid flag — frame k+1 invokes Window
Search.  The second case is vacuous on traces of completed frames: over the
tripled three-channel scan any search that returns reports lanes_detected
True, so a completed frame ends True unless it entered as a reset frame
(flag False) and ends None; a genuine validation failure instead raises
inside np.polyfit, aborting the video before a frame k+1 exists (see C2 and
C3). -/
theorem state_machine_transition_law (g : Mask) (s : TState) (m m2 : Mask)
    (o o2 : StepOut) (h : process_image g s m = .ok o)
    (h2 : process_image g o.st m2 = .ok o2) :
    (o.st.ld = some true → o2.invokedTargeted = true ∧ o2.invokedWindow = false)
    ∧ (o.st.ld ≠ some true → o2.invokedWindow = true) := by
  have hend := process_image_end_flag g s m o h
  rcases o with ⟨⟨ld1, lf1, rf1⟩, iw1, it1, ov1⟩
  dsimp only at hend h2 ⊢
  constructor
  · intro hv
    subst hv
    have key : process_image g ⟨some true, lf1, rf1⟩ m2 =
        match subsequent_frame m2 (lf1.getD fit0) (rf1.getD fit0) with
        | .error e => .error e
        | .ok t => .ok ⟨⟨some t.detected, some t.lfit, some t.rfit⟩,
            false, true, some (t.lfit, t.rfit)⟩ := rfl
    rw [key] at h2
    cases ht : subsequent_frame m2 (lf1.getD fit0) (rf1.getD fit0) with
    | error e => rw [ht] at h2; dsimp only at h2; simp at h2
    | ok t =>
      rw [ht] at h2
      dsimp only at h2
      have h3 := Except.ok.inj h2
      subst h3
      exact ⟨rfl, rfl⟩
  · intro hnv
    have hnone : ld1 = none := by
      rcases hend with he | he
      · exact absurd he hnv
      · exact he
    subst hnone
    have key : process_image g ⟨none, lf1, rf1⟩ m2 =
        match sliding_window m2 g with
        | .error e => .error e
        | .ok w =>
          if w.detected then
            match subsequent_frame m2 w.lfit w.rfit with
            | .error e => .error e
            | .ok t => .ok ⟨⟨some t.detected, some t.lfit, some t.rfit⟩,
                true, true, some (t.lfit, t.rfit)⟩
          else .ok ⟨⟨none, some w.lfit, some w.rfit⟩, true, false, none⟩ := rfl
    rw [key] at h2
    cases hw : sliding_window m2 g with
    | error e => rw [hw] at h2; dsimp only at h2; simp at h2
    | ok w =>
      rw [hw] at h2
      dsimp only at h2
      by_cases hd : w.detected = true
      · rw [if_pos hd] at h2
        cases ht : subsequent_frame m2 w.lfit w.rfit with
        | error e => rw [ht] at h2; dsimp only at h2; simp at h2
        | ok t =>
          rw [ht] at h2
          dsimp only at h2
          have h3 := Except.ok.inj h2
          subst h3
          rfl
      · rw [if_neg hd] at h2
        have h3 := Except.ok.inj h2
        subst h3
        rfl

/-- Witness for C1 at concrete inputs: two consecutive twoLines frames from
the initial state; frame 1 ends Tracking (flag True) and frame 2 invokes the
targeted search and not the window search. -/
theorem state_machine_transition_law_witness :
    ((⟨⟨some true, some (0, 0, 4), some (0, 0, 4)⟩, true, true,
        some ((0, 0, 4), (0, 0, 4))⟩ : StepOut).st.ld = some true →
      (⟨⟨some true, some (0, 0, 4), some (0, 0, 4)⟩, false, true,
        some ((0, 0, 4), (0, 0, 4))⟩ : StepOut).invokedTargeted = true ∧
      (⟨⟨some true, some (0, 0, 4), some (0, 0, 4)⟩, false, true,
        some ((0, 0, 4), (0, 0, 4))⟩ : StepOut).invokedWindow = false)
    ∧ ((⟨⟨some true, some (0, 0, 4), some (0, 0, 4)⟩, true, true,
        some ((0, 0, 4), (0, 0, 4))⟩ : StepOut).st.ld ≠ some true →
      (⟨⟨some true, some (0, 0, 4), some (0, 0, 4)⟩, false, true,
        some ((0, 0, 4), (0, 0, 4))⟩ : StepOut).invokedWindow = true) :=
  state_machine_transition_law twoLines initState twoLines twoLines
    ⟨⟨some true, some (0, 0, 4), some (0, 0, 4)⟩, true, true,
      some ((0, 0, 4), (0, 0, 4))⟩
    ⟨⟨some true, some (0, 0, 4), some (0, 0, 4)⟩, false, true,
      some ((0, 0, 4), (0, 0, 4))⟩
    (by with_unfolding_all rfl) (by with_unfolding_all rfl)

/-- C3 (code bug): a genuine fit-validation failure in Tracking mode — an
empty corridor pixel set (any nonempty set passes the shape > 1 test over
the tripled scan, see subsequent_frame_ok_detected) — does not produce the
claimed transition.  The unguarded np.polyfit raises on the empty vectors
(modelled as Except.error), aborting the frame before the tracker globals
are reassigned and before any overlay is rendered: the tracker does not
transition to Searching, the stored LineFits are not cleared (the mutable
state is left untouched), and the exception propagates out of
process_image.  Concrete input: tracking state with stored fits (0,0,4) and
a frame whose only active pixel, at column 200, lies outside the
plus-or-minus 100 corridor of the prior prediction (column 4). -/
theorem tracking_validation_failure_crashes :
    subsequent_frame farDot (0, 0, 4) (0, 0, 4) = .error () ∧
    process_image zeroMask ⟨some true, some (0, 0, 4), some (0, 0, 4)⟩ farDot =
      .error () := by
  constructor <;> with_unfolding_all rfl

/-- C9: the center offset returned by the targeted search does not depend on
the prior fits, and equals the value the window search's histogram lines
compute on the same mask. -/
theorem targeted_offset_independent_of_priors (m : Mask)
    (lf rf lf2 rf2 : Fitq) (r r2 : SWOut)
    (h : subsequent_frame m lf rf = .ok r)
    (h2 : subsequent_frame m lf2 rf2 = .ok r2) :
    r.offset = r2.offset ∧ r.offset = center_offset_sliding m := by
  have extract : ∀ (a b : Fitq) (x : SWOut), subsequent_frame m a b = .ok x →
      x.offset = center_offset_subsequent m := by
    intro a b x hx
    have key : subsequent_frame m a b =
        match polyfitE ((subsequentInds m a b).1.map fun q => (q.1 : ℚ))
            ((subsequentInds m a b).1.map fun q => (q.2 : ℚ)) with
        | .error e => .error e
        | .ok f1 =>
          match polyfitE ((subsequentInds m a b).2.map fun q => (q.1 : ℚ))
              ((subsequentInds m a b).2.map fun q => (q.2 : ℚ)) with
          | .error e => .error e
          | .ok f2 => .ok ⟨decide (1 < (subsequentInds m a b).1.length ∧
              1 < (subsequentInds m a b).2.length),
              center_offset_subsequent m, f1, f2⟩ := rfl
    rw [key] at hx
    cases h1 : polyfitE ((subsequentInds m a b).1.map fun q => (q.1 : ℚ))
        ((subsequentInds m a b).1.map fun q => (q.2 : ℚ)) with
    | error e => rw [h1] at hx; dsimp only at hx; simp at hx
    | ok f1 =>
      rw [h1] at hx
      dsimp only at hx
      cases h2x : polyfitE ((subsequentInds m a b).2.map fun q => (q.1 : ℚ))
          ((subsequentInds m a b).2.map fun q => (q.2 : ℚ)) with
      | error e => rw [h2x] at hx; dsimp only at hx; simp at hx
      | ok f2 =>
        rw [h2x] at hx
        dsimp only at hx
        have h3 := Except.ok.inj hx
        subst h3
        rfl
  have e1 := extract lf rf r h
  have e2 := extract lf2 rf2 r2 h2
  exact ⟨e1.trans e2.symm, e1.trans rfl⟩

/-- Witness for C9 at a concrete input: two targeted searches on twoLines
with different priors return the same offset, equal to the histogram
offset. -/
theorem targeted_offset_independent_witness :
    (⟨true, 0, (0, 0, 4), (0, 0, 4)⟩ : SWOut).offset =
      (⟨true, 0, (0, 0, 4), (0, 0, 4)⟩ : SWOut).offset ∧
    (⟨true, 0, (0, 0, 4), (0, 0, 4)⟩ : SWOut).offset =
      center_offset_sliding twoLines :=
  targeted_offset_independent_of_priors twoLines (0, 0, 4) (0, 0, 4) (0, 0, 5)
    (0, 0, 5) ⟨true, 0, (0, 0, 4), (0, 0, 4)⟩ ⟨true, 0, (0, 0, 4), (0, 0, 4)⟩
    (by with_unfolding_all rfl) (by with_unfolding_all rfl)

/-- C10: a frame entered in searching mode (lanes_detected None) whose window
search validates runs the targeted search on the same mask within the same
frame, and both the stored fits and the overlay of that frame come from the
same-frame targeted re-fit. -/
theorem searching_frame_refits_with_targeted (g : Mask) (s : TState)
    (m : Mask) (w t : SWOut) (hld : s.ld = none)
    (hw : sliding_window m g = .ok w) (hdet : w.detected = true)
    (ht : subsequent_frame m w.lfit w.rfit = .ok t) :
    process_image g s m =
      .ok ⟨⟨some t.detected, some t.lfit, some t.rfit⟩, true, true,
        some (t.lfit, t.rfit)⟩ := by
  rcases s with ⟨ld, slf, srf⟩
  obtain rfl : ld = none := hld
  have key : process_image g ⟨none, slf, srf⟩ m =
      match sliding_window m g with
      | .error e => .error e
      | .ok w =>
        if w.detected then
          match subsequent_frame m w.lfit w.rfit with
          | .error e => .error e
          | .ok t => .ok ⟨⟨some t.detected, some t.lfit, some t.rfit⟩,
              true, true, some (t.lfit, t.rfit)⟩
        else .ok ⟨⟨none, some w.lfit, some w.rfit⟩, true, false, none⟩ := rfl
  rw [key, hw]
  dsimp only
  rw [if_pos hdet, ht]

/-- Witness for C10 at a concrete input: from the initial state with mask
twoLines, the window search validates and the frame's stored fits and overlay
both come from the same-frame targeted re-fit. -/
theorem searching_frame_refits_witness :
    process_image twoLines initState twoLines =
      .ok ⟨⟨some true, some (0, 0, 4), some (0, 0, 4)⟩, true, true,
        some ((0, 0, 4), (0, 0, 4))⟩ :=
  searching_frame_refits_with_targeted twoLines initState twoLines
    ⟨true, 0, (0, 0, 4), (0, 0, 4)⟩ ⟨true, 0, (0, 0, 4), (0, 0, 4)⟩ rfl
    (by with_unfolding_all rfl) rfl (by with_unfolding_all rfl)

/-- C6: on the standard ploty array [0 .. H-1], the curvature reported by
calculate_curvature equals the specification's value: each line's radius is
computed from the metric-space re-fit by the radius formula at
y0 = imageHeight - 1 (scaled to metric y units), converted to kilometers,
rounded to one decimal, and the two rounded radii are then averaged.  The
second conjunct records that this rounding-before-averaging is observable:
averaging first and rounding once gives a different value on radii 0.12 km
and 0.18 km. -/
theorem curvature_round_then_average (mid : ℤ) (lx rx : List ℚ) (H : Nat)
    (hH : 1 ≤ H) :
    ((calculate_curvature mid lx rx (plotyOf H)).2 = curvatureSpec lx rx H)
    ∧ (round1R (12/100) + round1R (18/100)) / 2 ≠
        round1R ((12/100 + 18/100) / 2) := by
  constructor
  · simp only [calculate_curvature, curvatureSpec]
    rw [listMax_plotyOf H hH]
    ring
  · have h1 : round1R (12/100) = 1/10 := by
      have : round ((10:ℝ) * (12/100)) = 1 := by rw [round_eq]; norm_num
      rw [round1R, this]
      norm_num
    have h2 : round1R (18/100) = 2/10 := by
      have : round ((10:ℝ) * (18/100)) = 2 := by rw [round_eq]; norm_num
      rw [round1R, this]
      norm_num
    have h3 : round1R ((12/100 + 18/100) / 2) = 2/10 := by
      have : round ((10:ℝ) * ((12/100 + 18/100) / 2)) = 2 := by
        rw [round_eq]; norm_num
      rw [round1R, this]
      norm_num
    rw [h1, h2, h3]
    norm_num

/-- Witness for C6 at a concrete input: image height 1, empty sample lists. -/
theorem curvature_round_then_average_witness :
    ((calculate_curvature 0 [] [] (plotyOf 1)).2 = curvatureSpec [] [] 1)
    ∧ (round1R (12/100) + round1R (18/100)) / 2 ≠
        round1R ((12/100 + 18/100) / 2) :=
  curvature_round_then_average 0 [] [] 1 (by decide)

/-- C7 (amended): the geometry converter divides by np.absolute(2*A)
unguarded; whenever the metric re-fit's leading coefficient A is zero the
divisor is exactly zero (the float source performs a division by zero,
yielding an infinite radius) and the radius expression collapses through the
total division-by-zero convention of this model.  No epsilon test, clamping,
or straight report exists in the converter. -/
theorem zero_lead_coefficient_divides_by_zero (xs ploty : List ℚ)
    (hA : (metricFit xs ploty).1 = 0) :
    radiusDenom (metricFit xs ploty).1 = 0 ∧
    ∀ y0 : ℚ, radiusOfCurvature (metricFit xs ploty).1
      (metricFit xs ploty).2.1 y0 = 0 := by
  rw [hA]
  refine ⟨by simp [radiusDenom], fun y0 => ?_⟩
  simp [radiusOfCurvature, radiusDenom]

/-- Counterexample for C7 as stated: a perfectly straight synthetic line
(constant column 5 sampled at rows 0, 1, 2) produces a metric re-fit with
leading coefficient exactly zero, and the divisor the converter uses for the
radius is exactly zero — the division by zero the claim rules out does
happen, and no clamped or straight result is produced instead. -/
theorem radius_division_by_zero_counterexample :
    (metricFit [5, 5, 5] [0, 1, 2]).1 = 0 ∧
    radiusDenom (metricFit [5, 5, 5] [0, 1, 2]).1 = 0 := by
  constructor
  · with_unfolding_all decide
  · with_unfolding_all decide

/-- Witness for C7 at the concrete straight-line input, with the radius
evaluated at y0 = 1. -/
theorem zero_lead_divides_by_zero_witness :
    radiusDenom (metricFit [5, 5, 5] [0, 1, 2]).1 = 0 ∧
    radiusOfCurvature (metricFit [5, 5, 5] [0, 1, 2]).1
      (metricFit [5, 5, 5] [0, 1, 2]).2.1 1 = 0 :=
  ⟨(zero_lead_coefficient_divides_by_zero [5, 5, 5] [0, 1, 2]
      (by with_unfolding_all decide)).1,
   (zero_lead_coefficient_divides_by_zero [5, 5, 5] [0, 1, 2]
      (by with_unfolding_all decide)).2 1⟩
